import Mathlib

/-!
Shallow embedding of the template engine core of this repository
(`django/template/base.py` and `django/template/context.py`): values,
variable lookup resolution, filter expressions, the context stack,
`render_value_in_context`, and the parser, together with theorems settling
the claims about them.
-/

set_option maxRecDepth 10000

namespace TemplateCore

mutual

/-- Python values occurring during template rendering, as needed by the
lookup/resolution code of `django/template/base.py`.  `vstr` is a plain
`str`; `vsafe` is a `SafeData`-marked string (`mark_safe`).  `vfloat`
keeps the source text of a float literal (its numeric value is never
inspected by the embedded code).  `vdict` is a `dict` with string keys,
`vobj` an object with plain (data) attributes, `vcall` a callable with the
two flags `do_not_call_in_templates` and `alters_data` and a behaviour
describing what calling it with zero arguments does. -/
inductive Val where
  | vnone
  | vbool (b : Bool)
  | vint (n : Int)
  | vfloat (lit : String)
  | vstr (s : String)
  | vsafe (s : String)
  | vlist (xs : List Val)
  | vdict (xs : List (String × Val))
  | vobj (attrs : List (String × Val))
  | vcall (doNotCall altersData : Bool) (beh : CallBeh)

/-- Behaviour of a zero-argument call `current()` in
`Variable._resolve_lookup`: it returns a value, raises a `TypeError`
while `getcallargs(current)` also raises (arguments *were* required), or
raises some other exception whose class may carry
`silent_variable_failure`. -/
inductive CallBeh where
  | returns (v : Val)
  | typeErrorRequiredArgs
  | raises (silent : Bool)

end

end TemplateCore

namespace TemplateCore

/-- Errors escaping from variable resolution: `VariableDoesNotExist`
(carrying the failing segment, for diagnostics) or an exception raised by
a callable during lookup (carrying its `silent_variable_failure` flag). -/
inductive LookupErr where
  | vdne (bit : String)
  | raised (silent : Bool)
deriving DecidableEq, Repr

/-- Strip surrounding whitespace, as `int()` does with its argument. -/
def trimChars (cs : List Char) : List Char :=
  ((cs.dropWhile Char.isWhitespace).reverse.dropWhile Char.isWhitespace).reverse

/-- `int(bit)` as used by the list-index lookup stage: optional
whitespace, an optional sign, then at least one digit; anything else
raises `ValueError` (modelled as `none`). -/
def pyToInt (s : String) : Option Int :=
  let t := trimChars s.toList
  match t with
  | [] => none
  | c :: rest =>
    let (neg, digits) :=
      if c = '-' then (true, rest)
      else if c = '+' then (false, rest)
      else (false, c :: rest)
    if digits ≠ [] ∧ digits.all Char.isDigit then
      let n : Nat := digits.foldl (fun acc d => acc * 10 + (d.toNat - 48)) 0
      some (if neg then -(n : Int) else (n : Int))
    else none

/-- Python sequence indexing `xs[i]` with negative-index wraparound;
`none` models `IndexError`. -/
def pyIndex (xs : List Val) (i : Int) : Option Val :=
  let n : Int := xs.length
  let j := if i < 0 then i + n else i
  if 0 ≤ j ∧ j < n then xs.get? j.toNat else none

/-- Stage 1 of `_resolve_lookup`: dictionary lookup `current[bit]`.
Failure (`TypeError`/`KeyError`/... , all caught by the source's first
`except` clause) is `none`.  Lists and strings subscripted with a string
key raise `TypeError`; non-subscriptable values raise `TypeError`. -/
def dictLookup (current : Val) (bit : String) : Option Val :=
  match current with
  | .vdict xs => xs.lookup bit
  | _ => none

/-- Stage 2 of `_resolve_lookup`: attribute lookup `getattr(current, bit)`
on values with plain data attributes; `none` models `AttributeError`.
(Builtin-type method attributes and raising properties are outside the
modelled value universe.) -/
def attrLookup (current : Val) (bit : String) : Option Val :=
  match current with
  | .vobj attrs => attrs.lookup bit
  | _ => none

/-- Stage 3 of `_resolve_lookup`: list-index lookup `current[int(bit)]`;
`none` models `IndexError`/`ValueError`/`KeyError`/`TypeError`.  A string
dict has no `int(bit)` key, and indexing a `str` yields a one-character
string, exactly as in Python. -/
def indexLookup (current : Val) (bit : String) : Option Val :=
  match pyToInt bit with
  | none => none
  | some i =>
    match current with
    | .vlist xs => pyIndex xs i
    | .vstr s =>
      (pyIndex (s.toList.map (fun c => .vstr (String.singleton c))) i)
    | .vsafe s =>
      (pyIndex (s.toList.map (fun c => .vstr (String.singleton c))) i)
    | _ => none

/-- One lookup segment of `Variable._resolve_lookup` without the callable
check: dictionary lookup, then attribute lookup, then list-index lookup;
if all three fail, `VariableDoesNotExist` is raised for this segment. -/
def stagedAccess (current : Val) (bit : String) : Except LookupErr Val :=
  match dictLookup current bit with
  | some v => .ok v
  | none =>
    match attrLookup current bit with
    | some v => .ok v
    | none =>
      match indexLookup current bit with
      | some v => .ok v
      | none => .error (.vdne bit)

/-- The `if callable(current)` block of `Variable._resolve_lookup`, run on
the value a segment resolved to.  `siv` is
`context.template.engine.string_if_invalid`. -/
def afterCall (siv : String) (v : Val) : Except LookupErr Val :=
  match v with
  | .vcall doNotCall altersData beh =>
    if doNotCall then .ok (.vcall doNotCall altersData beh)
    else if altersData then .ok (.vstr siv)
    else
      match beh with
      | .returns r => .ok r
      | .typeErrorRequiredArgs => .ok (.vstr siv)
      | .raises silent => .error (.raised silent)
  | _ => .ok v

/-- One full iteration of the segment loop of `_resolve_lookup`: staged
access followed by the callable check. -/
def resolveStep (siv : String) (current : Val) (bit : String) :
    Except LookupErr Val :=
  match stagedAccess current bit with
  | .error e => .error e
  | .ok v => afterCall siv v

/-- The segment loop of `_resolve_lookup` over the remaining bits, the
current value being an ordinary value (not the `Context` object). -/
def resolveBits (siv : String) (current : Val) :
    List String → Except LookupErr Val
  | [] => .ok current
  | bit :: rest =>
    match resolveStep siv current bit with
    | .error e => .error e
    | .ok v => resolveBits siv v rest

/-- The outer `try ... except Exception` of `_resolve_lookup`: an
exception flagged `silent_variable_failure` is swallowed and replaced by
`string_if_invalid`; everything else (including `VariableDoesNotExist`)
propagates. -/
def silentWrap (siv : String) (r : Except LookupErr Val) :
    Except LookupErr Val :=
  match r with
  | .error (.raised true) => .ok (.vstr siv)
  | r => r

/-- `Variable._resolve_lookup` where the context argument is a plain value
(e.g. the dict of the spec's example `Variable("a.b.0").resolve({...})`). -/
def resolveLookupVal (siv : String) (start : Val) (bits : List String) :
    Except LookupErr Val :=
  silentWrap siv (resolveBits siv start bits)

/-! ### The context stack (`django/template/context.py`) -/

/-- One scope mapping of the context stack, string key to value.  Lookup
is by first match (`frameGet`), so earlier entries shadow later ones. -/
abbrev Frame := List (String × Val)

def frameGet (f : Frame) (k : String) : Option Val := f.lookup k

/-- `BaseContext`: the ordered list of scope dictionaries, bottom
(builtins) first, top (most recently pushed) last, as in `self.dicts`. -/
structure BCtx where
  dicts : List Frame

/-- The fixed builtins mapping installed by `BaseContext._reset_dicts`. -/
def builtinsFrame : Frame :=
  [("True", .vbool true), ("False", .vbool false), ("None", .vnone)]

/-- `BaseContext._reset_dicts`: the stack is the builtins frame, plus the
optional initial mapping on top of it. -/
def resetDicts (value : Option Frame) : BCtx :=
  ⟨[builtinsFrame] ++ (match value with | some v => [v] | none => [])⟩

/-- A fresh `Context()` (no initial mapping): only the builtins frame. -/
def freshCtx : BCtx := resetDicts none

/-- `BaseContext.__getitem__` / `get`: scan the frames from top (end of
the list) to bottom, returning the first frame's value for the key;
`none` models `KeyError` (resp. the `get` default). -/
def ctxGet (c : BCtx) (k : String) : Option Val :=
  (c.dicts.reverse.findSome? fun d => frameGet d k)

/-- Errors raised by context-stack operations: `ContextPopException` from
`pop` on the builtins-only stack, and the `TypeError` that
`dict.__init__` raises inside `ContextDict` when more than one positional
mapping is passed. -/
inductive CtxErr where
  | contextPop
  | typeError
deriving DecidableEq, Repr

/-- `BaseContext.pop`: raise `ContextPopException` if only one frame
remains, else remove and return the top frame. -/
def BCtx.pop (c : BCtx) : Except CtxErr (Frame × BCtx) :=
  if c.dicts.length = 1 then .error .contextPop
  else
    match c.dicts.getLast? with
    | some top => .ok (top, ⟨c.dicts.dropLast⟩)
    | none => .error .contextPop

/-- `dict(m, **kw)`: the new dictionary holding `m` updated by the
keyword entries (keyword entries win).  With first-match lookup this is
`kw` in front of `m`. -/
def mergeFrames (m kw : Frame) : Frame := kw ++ m

/-- `BaseContext.push(*args, **kwargs)` restricted to plain-mapping
positional arguments (a `BaseContext` argument contributes its
non-builtins frames to the same positional list before this point).
`ContextDict.__init__` forwards the positional mappings to
`dict.__init__`, which accepts at most one positional argument: with two
or more mappings it raises `TypeError` before the new frame is appended,
leaving the stack unchanged.  Otherwise the single merged frame is
appended on top and also returned (the `ContextDict` handle). -/
def BCtx.push (c : BCtx) (args : List Frame) (kw : Frame) :
    Except CtxErr (Frame × BCtx) :=
  if 2 ≤ args.length then .error .typeError
  else
    let newFrame := mergeFrames (args.headD []) kw
    .ok (newFrame, ⟨c.dicts ++ [newFrame]⟩)

/-- One stack operation performed by a caller, for stating the bottom-
frame invariant over arbitrary push/pop sequences. -/
inductive CtxOp where
  | push (args : List Frame) (kw : Frame)
  | pop

/-- Apply one operation; a failing operation (pop on the builtins-only
stack, push of two or more mappings) raises before mutating, so the
stack is left unchanged. -/
def applyOp (c : BCtx) : CtxOp → BCtx
  | .push args kw =>
    match c.push args kw with
    | .ok (_, c') => c'
    | .error _ => c
  | .pop =>
    match c.pop with
    | .ok (_, c') => c'
    | .error _ => c

def applyOps (c : BCtx) (ops : List CtxOp) : BCtx := ops.foldl applyOp c

/-! ### `Variable` compilation and resolution -/

/-- `unescape_string_literal`-style check: the text starts and ends with
the same quote character (single or double) and has length at least 2. -/
def isQuoted (s : String) : Bool :=
  match s.toList with
  | [] => false
  | c :: rest =>
    (c = '\'' ∨ c = '"') ∧ rest ≠ [] ∧ rest.getLast? = some c

/-- `unescape_string_literal`: strip the quotes and unescape `\⟨quote⟩`
and `\\`. -/
def unescapeStringLiteral (s : String) : String :=
  match s.toList with
  | [] => ""
  | q :: rest =>
    let body := rest.dropLast
    let rec go : List Char → List Char
      | [] => []
      | '\\' :: c :: tl => if c = q ∨ c = '\\' then c :: go tl
                           else '\\' :: c :: go tl
      | c :: tl => c :: go tl
    String.mk (go body)

/-- Recogniser for the Python `int(var)` compile-time branch of
`Variable.__init__` (no surrounding whitespace expected from template
text; signs allowed). -/
def pyIntLit (s : String) : Bool :=
  (pyToInt s).isSome

/-- Recogniser for `float(var)`: optional sign, digits with at most one
dot (at least one digit overall), optional exponent part.  (`inf`/`nan`
spellings are outside the template grammar and not modelled.) -/
def pyFloatLit (s : String) : Bool :=
  let chars := s.toList
  let chars := match chars with
    | c :: rest => if c = '+' ∨ c = '-' then rest else chars
    | [] => chars
  let (mant, expo) :=
    match chars.splitOnP (fun c => c = 'e' ∨ c = 'E') with
    | [m] => (m, none)
    | [m, e] => (m, some e)
    | _ => ([' '], some [])   -- more than one exponent marker: invalid
  let mantOk :=
    match mant.splitOnP (· = '.') with
    | [a] => !a.isEmpty && a.all Char.isDigit
    | [a, b] => (!a.isEmpty || !b.isEmpty) && a.all Char.isDigit &&
                b.all Char.isDigit
    | _ => false
  let expOk :=
    match expo with
    | none => true
    | some e =>
      let e := match e with
        | c :: rest => if c = '+' ∨ c = '-' then rest else e
        | [] => e
      !e.isEmpty && e.all Char.isDigit
  mantOk && expOk

/-- A compiled `Variable`: the raw text, the optional literal value, the
optional lookup path, and the translation flag, mirroring the fields set
by `Variable.__init__`. -/
structure PyVariable where
  var : String
  literal : Option Val := none
  lookups : Option (List String) := none
  translate : Bool := false

/-- `TemplateSyntaxError` carrying its message. -/
inductive SyntaxErr where
  | templateSyntaxError (msg : String)
deriving DecidableEq, Repr

/-- Split on a separator character, keeping empty pieces, exactly like
Python `str.split(sep)`. -/
def splitOnChar (sep : Char) : List Char → List (List Char)
  | [] => [[]]
  | c :: tl =>
    if c = sep then [] :: splitOnChar sep tl
    else
      match splitOnChar sep tl with
      | h :: t => (c :: h) :: t
      | [] => [[c]]

/-- `var.find('.' + '_') > -1`: does the text contain the two-character
sequence `._`? -/
def hasDotUnderscore : List Char → Bool
  | '.' :: '_' :: _ => true
  | _ :: tl => hasDotUnderscore tl
  | [] => false

/-- `Variable.__init__`: try a numeric literal (float when the text
contains `.` or `e`/`E`, with a bare trailing `.` rejected; otherwise
int); else strip an optional `_( ... )` translation marker and try a
quoted-string literal (marked safe); else reject a leading underscore at
the start or after a `.`, and otherwise record the dotted lookup path. -/
def mkVariable (var : String) : Except SyntaxErr PyVariable :=
  let cs := var.toList
  let floatBranch := cs.any (fun c => c = '.' ∨ c = 'e' ∨ c = 'E')
  let numeric :=
    if floatBranch then pyFloatLit var ∧ cs.getLast? ≠ some '.'
    else pyIntLit var
  if numeric then
    if floatBranch then .ok { var := var, literal := some (.vfloat var) }
    else .ok { var := var, literal := some (.vint ((pyToInt var).getD 0)) }
  else
    let stripped : Option (List Char) :=
      match cs with
      | '_' :: '(' :: rest =>
        if rest.getLast? = some ')' then some rest.dropLast else none
      | _ => none
    let (translate, vcs) :=
      match stripped with
      | some inner => (true, inner)
      | none => (false, cs)
    let v := String.mk vcs
    if isQuoted v then
      .ok { var := var, literal := some (.vsafe (unescapeStringLiteral v)),
            translate := translate }
    else if hasDotUnderscore vcs ∨ vcs.head? = some '_' then
      .error (.templateSyntaxError
        ("Variables and attributes may not begin with underscores: " ++ v))
    else
      .ok { var := var, lookups := some ((splitOnChar '.' vcs).map String.mk),
            translate := translate }

/-- The context argument of `Variable.resolve`: either a real `Context`
object (layered stack) or a plain value such as a dict. -/
inductive ResolveRoot where
  | ctx (c : BCtx)
  | val (v : Val)

/-- `Variable._resolve_lookup` against either kind of context argument.
When the current value is the `Context` object, the first segment goes
through `Context.__getitem__` (layered scan); on `KeyError`, the
attribute stage is blocked (class attributes are explicitly rejected and
ordinary names raise `AttributeError` from `getattr(type(current), bit)`)
and the integer-index stage raises `KeyError`, so failure is
`VariableDoesNotExist`.  Subsequent segments run against plain values. -/
def resolveLookup (siv : String) (root : ResolveRoot) (bits : List String) :
    Except LookupErr Val :=
  match root with
  | .val v => resolveLookupVal siv v bits
  | .ctx c =>
    match bits with
    | [] => .error (.vdne "")   -- unreachable: `split` never yields []
    | b :: rest =>
      silentWrap siv
        (match ctxGet c b with
         | some v =>
           match afterCall siv v with
           | .error e => .error e
           | .ok v1 => resolveBits siv v1 rest
         | none => .error (.vdne b))

/-- `Variable.resolve`: lookups are resolved against the context; a
literal is already resolved.  The translation wrapper (`gettext_lazy`)
is external i18n machinery and is modelled as the identity. -/
def varResolve (siv : String) (root : ResolveRoot) (v : PyVariable) :
    Except LookupErr Val :=
  match v.lookups with
  | some bits => resolveLookup siv root bits
  | none => .ok (v.literal.getD .vnone)

/-! ### String conversion, safe marking and HTML escaping -/

mutual

/-- Python `repr` on the modelled values (addresses of objects/callables
and escaping inside string reprs are not reproduced). -/
def pyRepr : Val → String
  | .vnone => "None"
  | .vbool true => "True"
  | .vbool false => "False"
  | .vint n => toString n
  | .vfloat lit => lit
  | .vstr s => "\x27" ++ s ++ "\x27"
  | .vsafe s => "\x27" ++ s ++ "\x27"
  | .vlist xs => "[" ++ String.intercalate ", " (pyReprList xs) ++ "]"
  | .vdict xs => "\x7b" ++ String.intercalate ", " (pyReprPairs xs) ++ "\x7d"
  | .vobj _ => "<object>"
  | .vcall _ _ _ => "<callable>"

/-- `repr` of the elements of a list value. -/
def pyReprList : List Val → List String
  | [] => []
  | v :: t => pyRepr v :: pyReprList t

/-- `repr` of the entries of a dict value. -/
def pyReprPairs : List (String × Val) → List String
  | [] => []
  | (k, v) :: t => ("\x27" ++ k ++ "\x27: " ++ pyRepr v) :: pyReprPairs t

end

/-- Python `str`: identical to `repr` except on strings. -/
def pyStr : Val → String
  | .vstr s => s
  | .vsafe s => s
  | v => pyRepr v

/-- `mark_safe`: `SafeData` passes through; anything else becomes a
`SafeText` built from its string form. -/
def markSafe : Val → Val
  | .vsafe s => .vsafe s
  | v => .vsafe (pyStr v)

/-- `isinstance(value, SafeData)`. -/
def isSafeData : Val → Bool
  | .vsafe _ => true
  | _ => false

/-- `django.utils.html.escape` on one character: the five HTML-special
characters are replaced by entities. -/
def escapeChar (c : Char) : String :=
  if c = '&' then "&amp;"
  else if c = '<' then "&lt;"
  else if c = '>' then "&gt;"
  else if c = '"' then "&quot;"
  else if c = '\'' then "&#x27;"
  else String.singleton c

/-- `django.utils.html.escape`: simultaneous character translation. -/
def escapeHtml (s : String) : String :=
  String.join (s.toList.map escapeChar)

/-- `render_value_in_context` (`django/template/base.py`): localize the
value (`template_localtime`/`localize` only transform datetimes and
locale-formatted numbers, which are outside the modelled value universe,
so they act as the identity here); then, when autoescape is active,
convert non-`str` values to `str` and `conditional_escape` the result (a
`SafeData` value passes through unescaped); with autoescape inactive,
plain `str` conversion. -/
def render_value_in_context (autoescape : Bool) (value : Val) : String :=
  if autoescape then
    let value : Val :=
      match value with
      | .vstr s => .vstr s
      | .vsafe s => .vsafe s
      | v => .vstr (pyStr v)
    match value with
    | .vsafe s => s
    | .vstr s => escapeHtml s
    | _ => ""   -- unreachable: value is a string after the conversion above
  else pyStr value

/-! ### `FilterExpression` resolution -/

/-- A registered filter callable with the flags read by
`FilterExpression.resolve` and the argspec data read by `args_check`.
The function receives the autoescape kwarg (`some autoescape`) exactly
when it declares `needs_autoescape`; `expects_localtime` only triggers
`template_localtime`, the identity on the modelled values.  `alen` is
the declared positional-parameter count, `dlen` the number of
defaults. -/
structure PyFilter where
  fn : Option Bool → Val → List Val → Val
  isSafe : Bool := false
  needsAutoescape : Bool := false
  alen : Nat := 1
  dlen : Nat := 0

/-- One compiled filter argument: `(False, constant)` (already resolved,
passed through `mark_safe`) or `(True, Variable)` (resolved against the
context at render time). -/
inductive FilterArg where
  | constant (v : Val)
  | lookup (v : PyVariable)

/-- The `self.var` field of a `FilterExpression`: either a constant
already resolved at compile time, or a compiled `Variable`. -/
inductive FEVar where
  | const (v : Val)
  | varex (v : PyVariable)

/-- A compiled `FilterExpression`: the raw token text, the base
variable-or-constant, and the ordered filter chain. -/
structure FilterExpr where
  token : String
  var : FEVar
  filters : List (PyFilter × List FilterArg)

/-- `str(FilterExpression)` (`__str__`): the raw token text. -/
def feToString (fe : FilterExpr) : String := fe.token

/-- Resolution of one filter argument inside `FilterExpression.resolve`:
constants are wrapped with `mark_safe`, lookups resolved against the
context (a failure propagates). -/
def resolveArg (siv : String) (ctx : BCtx) : FilterArg → Except LookupErr Val
  | .constant v => .ok (markSafe v)
  | .lookup pv => varResolve siv (.ctx ctx) pv

/-- The filter loop of `FilterExpression.resolve`: resolve the argument
values, call the filter (passing the autoescape flag when declared), and
preserve the safe marking on the output when the filter declares
`is_safe` and the input was `SafeData`. -/
def applyFilters (siv : String) (autoescape : Bool) (ctx : BCtx) :
    Val → List (PyFilter × List FilterArg) → Except LookupErr Val
  | obj, [] => .ok obj
  | obj, (f, args) :: rest =>
    match args.mapM (resolveArg siv ctx) with
    | .error e => .error e
    | .ok argVals =>
      let newObj :=
        f.fn (if f.needsAutoescape then some autoescape else none) obj argVals
      let obj' :=
        if f.isSafe && isSafeData obj then markSafe newObj else newObj
      applyFilters siv autoescape ctx obj' rest

/-- Split on the two-character pattern `%s`, keeping empty pieces. -/
def splitOnPercentS : List Char → List (List Char)
  | [] => [[]]
  | '%' :: 's' :: tl => [] :: splitOnPercentS tl
  | c :: tl =>
    match splitOnPercentS tl with
    | h :: t => (c :: h) :: t
    | [] => [[c]]

/-- `'%s' in string_if_invalid`. -/
def containsPercentS (siv : String) : Bool :=
  1 < (splitOnPercentS siv.toList).length

/-- `string_if_invalid % self.var` for a fallback embedding one `%s`
placeholder (the configuration contract allows at most one): the
placeholder is replaced by the variable's raw text. -/
def formatStringIfInvalid (siv raw : String) : String :=
  match splitOnPercentS siv.toList with
  | [] => siv
  | [_] => siv
  | x :: rest =>
    String.mk x ++ raw ++
      String.intercalate "%s" (rest.map String.mk)

/-- `FilterExpression.resolve(context, ignore_failures)`.  A
`VariableDoesNotExist` from the base variable is caught: with
`ignore_failures` the object becomes `None`; otherwise, when
`string_if_invalid` is non-empty (truthy) the formatted fallback is
returned immediately — the filter chain is skipped —, and when it is
empty the empty string becomes the object and the filters run on it.
Exceptions other than `VariableDoesNotExist` propagate. -/
def feResolve (siv : String) (autoescape : Bool) (ctx : BCtx)
    (fe : FilterExpr) (ignoreFailures : Bool) : Except LookupErr Val :=
  match fe.var with
  | .const v => applyFilters siv autoescape ctx v fe.filters
  | .varex pv =>
    match varResolve siv (.ctx ctx) pv with
    | .ok obj => applyFilters siv autoescape ctx obj fe.filters
    | .error (.vdne _) =>
      if ignoreFailures then
        applyFilters siv autoescape ctx .vnone fe.filters
      else if siv ≠ "" then
        .ok (.vstr (if containsPercentS siv
                    then formatStringIfInvalid siv pv.var else siv))
      else
        applyFilters siv autoescape ctx (.vstr siv) fe.filters
    | .error e => .error e

/-! ### `FilterExpression` compilation (the `filter_re` scan loop) -/

/-- A raw filter argument as matched: `constant_arg` or `var_arg`. -/
inductive FEArgRaw where
  | constA (text : String)
  | varA (text : String)

/-- The groups of one `filter_re` match: a constant, a bare
variable-or-number (both `^`-anchored), or a `| name[:arg]` filter
segment. -/
inductive FEMatch where
  | constM (text : String)
  | varM (text : String)
  | filterM (name : String) (arg : Option FEArgRaw)

/-- `\w` of `filter_re`. -/
def isWordChar (c : Char) : Bool := c.isAlphanum || c = '_'

/-- The `var_chars` class `[\w.]` of `filter_re`. -/
def isVarChar (c : Char) : Bool := isWordChar c || c = '.'

/-- Scan the remainder of a quoted string after its opening quote `q`:
a body of non-quote, non-backslash characters and `\⟨any⟩` escapes, then
the closing quote.  Returns the consumed characters (closing quote
included) and the rest. -/
def scanQuotedRest (q : Char) : List Char → Option (List Char × List Char)
  | [] => none
  | c :: tl =>
    if c = q then some ([c], tl)
    else if c = '\\' then
      match tl with
      | [] => none
      | e :: tl2 => (scanQuotedRest q tl2).map fun p => (c :: e :: p.1, p.2)
    else (scanQuotedRest q tl).map fun p => (c :: p.1, p.2)

/-- Match a double- or single-quoted string at the head of the input. -/
def matchQuoted : List Char → Option (List Char × List Char)
  | [] => none
  | c :: tl =>
    if c = '"' ∨ c = '\'' then
      (scanQuotedRest c tl).map fun p => (c :: p.1, p.2)
    else none

/-- Match the `constant` alternative of `filter_re`: a quoted string,
optionally wrapped in the translation marker `_( ... )`. -/
def matchConstant : List Char → Option (List Char × List Char)
  | '_' :: '(' :: tl =>
    (match matchQuoted tl with
     | some (m, ')' :: r) => some ('_' :: '(' :: (m ++ [')']), r)
     | _ => none)
  | cs => matchQuoted cs

/-- Match the `var` alternative of `filter_re`: a nonempty run of
`[\w.]` characters, or the `num` pattern `[-+.]?\d[\d.e]*` (whose
sign-led cases are the only ones not already covered by the first
alternative). -/
def matchVarNum (cs : List Char) : Option (List Char × List Char) :=
  let m := cs.takeWhile isVarChar
  if m ≠ [] then some (m, cs.drop m.length)
  else
    match cs with
    | c :: d :: tl =>
      if (c = '-' ∨ c = '+') ∧ d.isDigit then
        let m2 := tl.takeWhile fun x => x.isDigit || x = '.' || x = 'e'
        some (c :: d :: m2, tl.drop m2.length)
      else none
    | _ => none

/-- Match the filter alternative of `filter_re`:
`\s* | \s* name [: (constant|var)]`.  When a `:` follows the name but
neither argument alternative matches, the optional argument group
matches empty and the `:` is left unconsumed (producing a gap and hence
a parse error in the scan loop). -/
def matchFilterSeg (cs : List Char) :
    Option (String × Option FEArgRaw × List Char) :=
  let cs1 := cs.dropWhile Char.isWhitespace
  match cs1 with
  | '|' :: tl =>
    let tl1 := tl.dropWhile Char.isWhitespace
    let name := tl1.takeWhile isWordChar
    if name = [] then none
    else
      match tl1.drop name.length with
      | ':' :: tl2 =>
        (match matchConstant tl2 with
         | some (m, r) => some (String.mk name, some (.constA (String.mk m)), r)
         | none =>
           match matchVarNum tl2 with
           | some (m, r) => some (String.mk name, some (.varA (String.mk m)), r)
           | none => some (String.mk name, none, ':' :: tl2))
      | r => some (String.mk name, none, r)
  | _ => none

/-- One `filter_re` match attempt at the current scan position.  The
`constant` and `var` alternatives are `^`-anchored, so they are only
tried at the very start of the token. -/
def matchAt (isStart : Bool) (cs : List Char) : Option (FEMatch × List Char) :=
  if isStart then
    match matchConstant cs with
    | some (m, r) => some (.constM (String.mk m), r)
    | none =>
      match matchVarNum cs with
      | some (m, r) => some (.varM (String.mk m), r)
      | none => (matchFilterSeg cs).map fun p => (.filterM p.1 p.2.1, p.2.2)
  else (matchFilterSeg cs).map fun p => (.filterM p.1 p.2.1, p.2.2)

/-- Does `finditer` find any further match strictly beyond a failed
position?  Only the un-anchored filter alternative can match there.
Decides which of the two gap errors of `FilterExpression.__init__` is
raised. -/
def existsLaterMatch : List Char → Bool
  | [] => false
  | _ :: tl => (matchFilterSeg tl).isSome || existsLaterMatch tl

/-- `Variable(text).resolve({})` for a constant match: a string literal
resolves to itself (the `except VariableDoesNotExist: var_obj = None`
arm, unreachable for literals, is the `.getD .vnone`). -/
def resolveConstant (pv : PyVariable) : Val :=
  match varResolve "" (.val (.vdict [])) pv with
  | .ok v => v
  | .error _ => .vnone

/-- `FilterExpression.args_check`: the filter's declared parameter count
(minus defaults) must be compatible with one implicit input plus the
provided arguments. -/
def argsCheck (f : PyFilter) (provided : Nat) : Bool :=
  let plen := provided + 1
  ¬ (plen < f.alen - f.dlen ∨ f.alen < plen)

/-- The `finditer` loop of `FilterExpression.__init__`: process matches
left to right with no gaps allowed, the first match giving the base
constant/variable and each further match a `(filter, args)` pair looked
up in the parser's filter registry and arity-checked.  The fuel is
always sufficient (each match consumes at least one character). -/
def feScanAux (filters : List (String × PyFilter)) :
    Nat → Option FEVar → List (PyFilter × List FilterArg) → Bool →
    List Char →
    Except SyntaxErr (Option FEVar × List (PyFilter × List FilterArg))
  | 0, _, _, _, _ =>
    .error (.templateSyntaxError "internal: fuel exhausted")
  | _ + 1, varObj, acc, _, [] => .ok (varObj, acc)
  | fuel + 1, varObj, acc, isStart, cs =>
    match matchAt isStart cs with
    | none =>
      if existsLaterMatch cs then
        .error (.templateSyntaxError "Could not parse some characters")
      else
        .error (.templateSyntaxError
          ("Could not parse the remainder: " ++ String.mk cs))
    | some (m, rest) =>
      match varObj, m with
      | none, .constM text =>
        (match mkVariable text with
         | .error e => .error e
         | .ok pv =>
           feScanAux filters fuel (some (.const (resolveConstant pv))) acc
             false rest)
      | none, .varM text =>
        (match mkVariable text with
         | .error e => .error e
         | .ok pv => feScanAux filters fuel (some (.varex pv)) acc false rest)
      | none, .filterM _ _ =>
        .error (.templateSyntaxError
          ("Could not find variable at start of " ++ String.mk cs))
      | some v, .filterM name argRaw =>
        (let argsE : Except SyntaxErr (List FilterArg) :=
          match argRaw with
          | none => .ok []
          | some (.constA text) =>
            (match mkVariable text with
             | .error e => .error e
             | .ok pv => .ok [.constant (resolveConstant pv)])
          | some (.varA text) =>
            (match mkVariable text with
             | .error e => .error e
             | .ok pv => .ok [.lookup pv])
        match argsE with
        | .error e => .error e
        | .ok args =>
          match filters.lookup name with
          | none => .error (.templateSyntaxError ("Invalid filter: " ++ name))
          | some f =>
            if argsCheck f args.length then
              feScanAux filters fuel (some v) (acc ++ [(f, args)]) false rest
            else
              .error (.templateSyntaxError (name ++ " requires arguments")))
      | some _, .constM _ =>
        .error (.templateSyntaxError "internal: anchored match past start")
      | some _, .varM _ =>
        .error (.templateSyntaxError "internal: anchored match past start")

/-- `FilterExpression.__init__` / `compile_filter`: store the raw token
text, scan it, and keep the base variable and filter chain.  An empty
token produces no matches, leaving `self.var = None`. -/
def compileFilterExpression (filters : List (String × PyFilter))
    (token : String) : Except SyntaxErr FilterExpr :=
  match feScanAux filters (token.length + 1) none [] true token.toList with
  | .error e => .error e
  | .ok (some v, fs) => .ok ⟨token, v, fs⟩
  | .ok (none, fs) => .ok ⟨token, .const .vnone, fs⟩

/-! ### The parser (`Parser.parse`) -/

/-- Token kinds, as in `TokenType`. -/
inductive PTokenType where
  | text
  | var
  | block
  | comment
deriving DecidableEq, Repr

/-- A lexed token: kind, contents and source line number. -/
structure PToken where
  tokenType : PTokenType
  contents : String
  lineno : Nat
deriving DecidableEq, Repr

/-- The behaviour of a registered tag-compiler callback, as far as the
parser claims need it: a simple tag returns its node without consuming
further tokens; a block tag (like `if`) recursively calls
`parser.parse(stops)` and then `parser.delete_first_token()`. -/
inductive TagImpl where
  | simple
  | blockUntil (stops : List String)

/-- Compiled template nodes. -/
inductive PNode where
  | textNode (s : String)
  | varNode (fe : FilterExpr)
  | blockNode (command : String) (children : List PNode)

/-- Errors raised during parsing, each annotated with the originating
token's line number as the corresponding message is in the source. -/
inductive ParseErr where
  | emptyVariableTag (lineno : Nat)
  | emptyBlockTag (lineno : Nat)
  | invalidBlockTag (lineno : Nat) (command : String)
      (parseUntil : List String)
  | unclosedBlockTag (lineno : Nat) (command : String)
      (parseUntil : List String)
  | filterSyntax (lineno : Nat) (e : SyntaxErr)
  | internal
deriving Repr

/-- Python `str.split()` with no argument: the whitespace-separated
words, empty pieces dropped. -/
def pySplitWs : List Char → List (List Char)
  | [] => []
  | c :: tl =>
    if c.isWhitespace then pySplitWs tl
    else
      match pySplitWs tl with
      | [] => [[c]]
      | h :: t =>
        match tl with
        | [] => [[c]]
        | d :: _ => if d.isWhitespace then [c] :: h :: t else (c :: h) :: t

/-- `token.contents.split()[0]`: the first whitespace-separated word;
`none` models the `IndexError` on empty or whitespace-only contents. -/
def pyFirstWord (s : String) : Option String :=
  ((pySplitWs s.toList).map String.mk).head?

/-- The parser's registries: block-tag compilers and filters. -/
structure ParserCfg where
  tags : List (String × TagImpl)
  filters : List (String × PyFilter)

/-- `Parser.parse(parse_until)`, fueled (the fuel is always sufficient
for a token list it is run on; each step consumes at least one token).
The command stack is threaded explicitly: an entry is pushed before a
tag's compile callback runs and popped after it returns, so at any point
the stack holds exactly the still-open block tags, innermost first.
`extend_nodelist`'s `must_be_first` check concerns only nodes flagged
`must_be_first` (none of the modelled tag kinds), and a `COMMENT` token
matches no branch of the dispatch and is skipped. -/
def parseAux (cfg : ParserCfg) :
    Nat → List (String × PToken) → List String → List PToken →
    Except ParseErr (List PNode × List PToken)
  | 0, _, _, _ => .error .internal
  | _ + 1, stack, parseUntil, [] =>
    if parseUntil ≠ [] then
      match stack with
      | (command, tok) :: _ =>
        .error (.unclosedBlockTag tok.lineno command parseUntil)
      | [] => .error .internal   -- `command_stack.pop()` on an empty stack
    else .ok ([], [])
  | fuel + 1, stack, parseUntil, token :: rest =>
    match token.tokenType with
    | .text =>
      (parseAux cfg fuel stack parseUntil rest).map fun p =>
        (.textNode token.contents :: p.1, p.2)
    | .comment => parseAux cfg fuel stack parseUntil rest
    | .var =>
      if token.contents = "" then .error (.emptyVariableTag token.lineno)
      else
        match compileFilterExpression cfg.filters token.contents with
        | .error e => .error (.filterSyntax token.lineno e)
        | .ok fe =>
          (parseAux cfg fuel stack parseUntil rest).map fun p =>
            (.varNode fe :: p.1, p.2)
    | .block =>
      match pyFirstWord token.contents with
      | none => .error (.emptyBlockTag token.lineno)
      | some command =>
        if command ∈ parseUntil then .ok ([], token :: rest)
        else
          match cfg.tags.lookup command with
          | none => .error (.invalidBlockTag token.lineno command parseUntil)
          | some .simple =>
            (parseAux cfg fuel stack parseUntil rest).map fun p =>
              (.blockNode command [] :: p.1, p.2)
          | some (.blockUntil stops) =>
            match parseAux cfg fuel ((command, token) :: stack) stops rest with
            | .error e => .error e
            | .ok (children, rest1) =>
              (parseAux cfg fuel stack parseUntil (rest1.drop 1)).map fun p =>
                (.blockNode command children :: p.1, p.2)

/-- Entry point `Parser.parse()` on a fresh parser: empty command stack,
no stop commands, fuel ample for the token list. -/
def parseTokens (cfg : ParserCfg) (tokens : List PToken) :
    Except ParseErr (List PNode × List PToken) :=
  parseAux cfg (tokens.length + 1) [] [] tokens

/-! ### Concrete example values used by the claims -/

/-- The context mapping of the spec's lookup example:
`{'a': {'b': [10, 20]}}`. -/
def exDict : Val := .vdict [("a", .vdict [("b", .vlist [.vint 10, .vint 20])])]

/-- An `upper`-style registered filter: `str.upper` on strings. -/
def upperFilter : PyFilter :=
  { fn := fun _ v _ =>
      match v with
      | .vstr s => .vstr (String.mk (s.toList.map Char.toUpper))
      | .vsafe s => .vsafe (String.mk (s.toList.map Char.toUpper))
      | v => v }

/-- A registry holding just the `upper` filter. -/
def stdFilters : List (String × PyFilter) := [("upper", upperFilter)]

/-- The compiled `Variable("x")`. -/
def xVar : PyVariable := { var := "x", lookups := some ["x"] }

/-- The compiled `FilterExpression("x|upper", parser)`. -/
def feXUpper : FilterExpr := ⟨"x|upper", .varex xVar, [(upperFilter, [])]⟩

/-- The compiled `FilterExpression("x", parser)` (no filters). -/
def feXPlain : FilterExpr := ⟨"x", .varex xVar, []⟩

end TemplateCore

namespace TemplateCore

/-! ## Claims -/

/-- C1: for every `Variable` compiled from a dotted lookup path and every
context, `resolve` walks the segments left to right, trying container-key
access first, then attribute access, then integer-index access, and
raising `VariableDoesNotExist` for the segment when all three fail; in
particular `Variable("a.b.0").resolve({'a': {'b': [10, 20]}})` returns
`10`. -/
theorem C1_variable_staged_lookup :
    (mkVariable "a.b.0" =
      .ok { var := "a.b.0", lookups := some ["a", "b", "0"] }) ∧
    (varResolve "" (.val exDict)
      { var := "a.b.0", lookups := some ["a", "b", "0"] } =
      .ok (.vint 10)) ∧
    (∀ siv current bit v, dictLookup current bit = some v →
      resolveStep siv current bit = afterCall siv v) ∧
    (∀ siv current bit v, dictLookup current bit = none →
      attrLookup current bit = some v →
      resolveStep siv current bit = afterCall siv v) ∧
    (∀ siv current bit v, dictLookup current bit = none →
      attrLookup current bit = none → indexLookup current bit = some v →
      resolveStep siv current bit = afterCall siv v) ∧
    (∀ siv current bit rest, dictLookup current bit = none →
      attrLookup current bit = none → indexLookup current bit = none →
      resolveBits siv current (bit :: rest) = .error (.vdne bit)) := by
  refine ⟨rfl, rfl, ?_, ?_, ?_, ?_⟩
  · intro siv current bit v h
    simp [resolveStep, stagedAccess, h]
  · intro siv current bit v h1 h2
    simp [resolveStep, stagedAccess, h1, h2]
  · intro siv current bit v h1 h2 h3
    simp [resolveStep, stagedAccess, h1, h2, h3]
  · intro siv current bit rest h1 h2 h3
    simp [resolveBits, resolveStep, stagedAccess, h1, h2, h3]

/-- Witness for C1: at `current = None`, segment `"x"`, all three lookup
stages fail and resolution fails with `VariableDoesNotExist`. -/
theorem C1_variable_staged_lookup_witness :
    dictLookup .vnone "x" = none ∧ attrLookup .vnone "x" = none ∧
    indexLookup .vnone "x" = none ∧
    resolveBits "" .vnone ["x"] = .error (.vdne "x") :=
  ⟨rfl, rfl, rfl,
   C1_variable_staged_lookup.2.2.2.2.2 "" .vnone "x" [] rfl rfl rfl⟩

/-- C2: a callable segment value flagged `do_not_call_in_templates` is
left uncalled; one flagged `alters_data` is never called and the
invalid-variable fallback is substituted; otherwise it is called with
zero arguments, and a `TypeError` from a call requiring arguments is
replaced by the fallback instead of propagating. -/
theorem C2_callable_policy (siv : String) (ad : Bool) (beh : CallBeh)
    (r : Val) :
    (resolveStep siv (.vdict [("f", .vcall true ad beh)]) "f" =
      .ok (.vcall true ad beh)) ∧
    (resolveStep siv (.vdict [("f", .vcall false true beh)]) "f" =
      .ok (.vstr siv)) ∧
    (resolveStep siv (.vdict [("f", .vcall false false (.returns r))]) "f" =
      .ok r) ∧
    (resolveStep siv
      (.vdict [("f", .vcall false false .typeErrorRequiredArgs)]) "f" =
      .ok (.vstr siv)) :=
  ⟨rfl, rfl, rfl, rfl⟩

/-- C7: with autoescape active a `SafeData` value passes through
unescaped (never double-escaped) while an unmarked string has its
HTML-special characters escaped (`<` becomes `&lt;`); with autoescape
inactive the value is converted to a string with no escaping. -/
theorem C7_render_value_escaping :
    (∀ s, render_value_in_context true (.vsafe s) = s) ∧
    (∀ s, render_value_in_context true (.vstr s) = escapeHtml s) ∧
    (render_value_in_context true (.vstr "a<b") = "a&lt;b") ∧
    (render_value_in_context true (.vsafe "&lt;") = "&lt;") ∧
    (∀ v, render_value_in_context false v = pyStr v) :=
  ⟨fun _ => rfl, fun _ => rfl, rfl, rfl, fun _ => rfl⟩

end TemplateCore

namespace TemplateCore

/-- C3 counterexample: with fallback `"n/a"` configured and base variable
`x` missing, `FilterExpression("x|upper").resolve` returns the fallback
itself — the `upper` filter of the chain is *not* applied to it (applying
it would give `"N/A"`). -/
theorem C3_counterexample :
    feResolve "n/a" true freshCtx feXUpper false = .ok (.vstr "n/a") ∧
    upperFilter.fn none (.vstr "n/a") [] = .vstr "N/A" ∧
    Val.vstr "n/a" ≠ Val.vstr "N/A" := by
  refine ⟨rfl, rfl, ?_⟩
  intro h
  injection h with h1
  exact absurd h1 (by decide)

/-- C3 amended: for every `FilterExpression` whose base variable lookup
fails with `VariableDoesNotExist`, `resolve(context, ignore_failures=
false)` with a non-empty configured fallback returns the fallback string
immediately (with the variable name substituted for a `%s` placeholder
when present), *skipping* the filter chain; the filters run only when no
fallback is configured or when failures are ignored. -/
theorem C3_fallback_skips_filters (siv : String) (autoescape : Bool)
    (ctx : BCtx) (tok : String) (pv : PyVariable)
    (filters : List (PyFilter × List FilterArg)) (b : String)
    (hfail : varResolve siv (.ctx ctx) pv = .error (.vdne b))
    (hsiv : siv ≠ "") :
    feResolve siv autoescape ctx ⟨tok, .varex pv, filters⟩ false =
      .ok (.vstr (if containsPercentS siv
                  then formatStringIfInvalid siv pv.var else siv)) := by
  simp [feResolve, hfail, hsiv]

/-- Witness for C3: fallback `"inv %s"`, missing variable `x`, one
`upper` filter — the result is `"inv x"`, untouched by the filter. -/
theorem C3_fallback_skips_filters_witness :
    varResolve "inv %s" (.ctx freshCtx) xVar = .error (.vdne "x") ∧
    ("inv %s" : String) ≠ "" ∧
    feResolve "inv %s" true freshCtx feXUpper false =
      .ok (.vstr "inv x") :=
  ⟨rfl, by decide,
   C3_fallback_skips_filters "inv %s" true freshCtx "x|upper" xVar
     feXUpper.filters "x" rfl (by decide)⟩

/-- C4 counterexample: with no fallback configured (`string_if_invalid`
is the empty string) and `ignore_failures=false`, resolving a
`FilterExpression` over the missing variable `x` does *not* raise
`VariableDoesNotExist`: it returns the empty string. -/
theorem C4_counterexample :
    feResolve "" true freshCtx feXPlain false = .ok (.vstr "") ∧
    feResolve "" true freshCtx feXPlain false ≠ .error (.vdne "x") := by
  have key : feResolve "" true freshCtx feXPlain false = .ok (.vstr "") := rfl
  refine ⟨key, ?_⟩
  rw [key]
  simp

/-- C4 amended: when the base variable lookup fails with
`VariableDoesNotExist`, no fallback is configured (empty
`string_if_invalid`) and `ignore_failures` is false,
`FilterExpression.resolve` catches the exception, substitutes the empty
fallback string as the base value and applies the filter chain to it;
the exception is not propagated to the caller. -/
theorem C4_no_fallback_swallows (autoescape : Bool) (ctx : BCtx)
    (tok : String) (pv : PyVariable)
    (filters : List (PyFilter × List FilterArg)) (b : String)
    (hfail : varResolve "" (.ctx ctx) pv = .error (.vdne b)) :
    feResolve "" autoescape ctx ⟨tok, .varex pv, filters⟩ false =
      applyFilters "" autoescape ctx (.vstr "") filters := by
  simp [feResolve, hfail]

/-- Witness for C4: missing variable `x` with an `upper` filter and no
fallback — resolution proceeds into the filter chain on `""`. -/
theorem C4_no_fallback_swallows_witness :
    varResolve "" (.ctx freshCtx) xVar = .error (.vdne "x") ∧
    feResolve "" true freshCtx feXUpper false =
      applyFilters "" true freshCtx (.vstr "") feXUpper.filters :=
  ⟨rfl,
   C4_no_fallback_swallows true freshCtx "x|upper" xVar feXUpper.filters
     "x" rfl⟩

/-- Helper for C5: one push/pop operation preserves the bottom frame and
the nonemptiness of the frame list. -/
theorem applyOp_head (c : BCtx) (hne : c.dicts ≠ []) (op : CtxOp) :
    (applyOp c op).dicts.head? = c.dicts.head? ∧ (applyOp c op).dicts ≠ [] := by
  obtain ⟨ds⟩ := c
  cases ds with
  | nil => exact absurd rfl hne
  | cons a t =>
    cases op with
    | push args kw =>
      by_cases h : 2 ≤ args.length
      · simp [applyOp, BCtx.push, h]
      · simp [applyOp, BCtx.push, h]
    | pop =>
      cases t with
      | nil => simp [applyOp, BCtx.pop]
      | cons b t2 =>
        have hlast : (a :: b :: t2 : List Frame).getLast? =
            some ((a :: b :: t2).getLast (by simp)) :=
          List.getLast?_eq_getLast_of_ne_nil (by simp)
        simp [applyOp, BCtx.pop, hlast]

/-- Helper for C5: any sequence of operations preserves the bottom frame
and nonemptiness. -/
theorem applyOps_head (ops : List CtxOp) : ∀ (c : BCtx), c.dicts ≠ [] →
    (applyOps c ops).dicts.head? = c.dicts.head? ∧
    (applyOps c ops).dicts ≠ [] := by
  induction ops with
  | nil => exact fun c hne => ⟨rfl, hne⟩
  | cons op t ih =>
    intro c hne
    have h1 := applyOp_head c hne op
    have h2 := ih (applyOp c op) h1.2
    exact ⟨h2.1.trans h1.1, h2.2⟩

/-- C5: for every context and every sequence of push/pop operations, the
bottom frame of the stack is the builtins mapping and is never removed;
`pop()` on the builtins-only stack raises `ContextPopException` and
leaves the stack unchanged, while `pop()` on a larger stack removes
exactly the top frame. -/
theorem C5_bottom_frame_invariant :
    (∀ (init : Option Frame) (ops : List CtxOp),
      (applyOps (resetDicts init) ops).dicts.head? = some builtinsFrame) ∧
    (∀ c : BCtx, c.dicts.length = 1 →
      c.pop = .error .contextPop ∧ applyOp c .pop = c) ∧
    (∀ (ds : List Frame) (f : Frame), ds ≠ [] →
      BCtx.pop ⟨ds ++ [f]⟩ = .ok (f, ⟨ds⟩)) := by
  refine ⟨?_, ?_, ?_⟩
  · intro init ops
    have h := applyOps_head ops (resetDicts init)
      (by cases init <;> simp [resetDicts])
    rw [h.1]
    cases init <;> rfl
  · intro c h
    exact ⟨by simp [BCtx.pop, h], by simp [applyOp, BCtx.pop, h]⟩
  · intro ds f hne
    have hlen : (ds ++ [f]).length ≠ 1 := by
      cases ds with
      | nil => exact absurd rfl hne
      | cons a t => simp
    simp [BCtx.pop, hlen, hne, List.getLast?_concat, List.dropLast_concat]

/-- Witness for C5: a fresh context refuses to pop its builtins frame
unchanged, and popping after one push removes exactly that frame. -/
theorem C5_bottom_frame_invariant_witness :
    freshCtx.dicts.length = 1 ∧
    freshCtx.pop = .error .contextPop ∧ applyOp freshCtx .pop = freshCtx ∧
    BCtx.pop ⟨[builtinsFrame] ++ [[("a", Val.vint 1)]]⟩ =
      .ok ([("a", Val.vint 1)], ⟨[builtinsFrame]⟩) := by
  have h2 := C5_bottom_frame_invariant.2.1 freshCtx rfl
  have h3 := C5_bottom_frame_invariant.2.2 [builtinsFrame]
    [("a", Val.vint 1)] (by simp)
  exact ⟨rfl, h2.1, h2.2, h3⟩

/-- C6: whenever `parse` runs with non-empty stop commands and the token
queue is exhausted before any stop command is reached, it fails with an
"unclosed tag" error naming the most recently pushed entry of the
command stack and that entry's token line number; in particular an
unterminated `{% if %}` fails naming `if` and its line. -/
theorem C6_unclosed_block_tag :
    (∀ (cfg : ParserCfg) (fuel : Nat) (command : String) (tok : PToken)
      (stack : List (String × PToken)) (parseUntil : List String)
      (tokens : List PToken),
      parseUntil ≠ [] → tokens.length < fuel →
      (∀ t ∈ tokens, t.tokenType = .text) →
      parseAux cfg fuel ((command, tok) :: stack) parseUntil tokens =
        .error (.unclosedBlockTag tok.lineno command parseUntil)) ∧
    (parseTokens ⟨[("if", .blockUntil ["elif", "else", "endif"])], []⟩
      [⟨.block, "if x", 1⟩, ⟨.text, "body", 2⟩] =
      .error (.unclosedBlockTag 1 "if" ["elif", "else", "endif"])) := by
  constructor
  · intro cfg fuel command tok stack parseUntil tokens
    induction tokens generalizing fuel with
    | nil =>
      intro hpu hfuel _
      cases fuel with
      | zero => simp at hfuel
      | succ n => simp [parseAux, hpu]
    | cons t ts ih =>
      intro hpu hfuel hall
      cases fuel with
      | zero => simp at hfuel
      | succ n =>
        have htype := hall t (by simp)
        have hts : ∀ x ∈ ts, x.tokenType = .text :=
          fun x hx => hall x (by simp [hx])
        have hlen : ts.length < n := by
          simp at hfuel
          omega
        have hrec := ih n hpu hlen hts
        simp [parseAux, htype, hrec, Except.map]
  · rfl

/-- Witness for C6: a parser looking for `endif` with `if` open on line 1
and only text left reports the unclosed `if` at line 1. -/
theorem C6_unclosed_block_tag_witness :
    parseAux ⟨[], []⟩ 2 [("if", ⟨.block, "if x", 1⟩)] ["endif"]
      [⟨.text, "b", 2⟩] = .error (.unclosedBlockTag 1 "if" ["endif"]) :=
  C6_unclosed_block_tag.1 ⟨[], []⟩ 2 "if" ⟨.block, "if x", 1⟩ [] ["endif"]
    [⟨.text, "b", 2⟩] (by simp) (by simp) (by decide)

/-- C8 counterexample: `push` with two positional mappings does not
create a merged top frame — it raises `TypeError` (from
`dict.__init__`, which accepts at most one positional argument), leaving
the stack unchanged. -/
theorem C8_counterexample :
    freshCtx.push [[("a", Val.vint 1)], [("b", Val.vint 2)]] [] =
      .error .typeError ∧
    applyOp freshCtx (.push [[("a", Val.vint 1)], [("b", Val.vint 2)]] []) =
      freshCtx :=
  ⟨rfl, rfl⟩

/-- C8 amended: `push` with at most one positional mapping (plus keyword
entries, which shadow it) creates a single merged new top frame, and the
scoped handle's release pops exactly that frame, restoring the previous
stack; with two or more positional mappings `push` raises `TypeError`
before any frame is added. -/
theorem C8_push_merges_single (c : BCtx) (args : List Frame) (kw : Frame)
    (hlen : args.length ≤ 1) (hne : c.dicts ≠ []) :
    (c.push args kw =
      .ok (mergeFrames (args.headD []) kw,
        ⟨c.dicts ++ [mergeFrames (args.headD []) kw]⟩)) ∧
    (BCtx.pop ⟨c.dicts ++ [mergeFrames (args.headD []) kw]⟩ =
      .ok (mergeFrames (args.headD []) kw, c)) ∧
    (∀ args2 : List Frame, 2 ≤ args2.length →
      c.push args2 kw = .error .typeError) := by
  have hnot : ¬ 2 ≤ args.length := by omega
  refine ⟨by simp [BCtx.push, hnot], ?_,
    fun args2 h2 => by simp [BCtx.push, h2]⟩
  have hlen2 : (c.dicts ++ [mergeFrames (args.headD []) kw]).length ≠ 1 := by
    cases hd : c.dicts with
    | nil => exact absurd hd hne
    | cons a t => simp
  simp [BCtx.pop, hlen2, hne, List.getLast?_concat, List.dropLast_concat]

/-- Witness for C8: pushing one mapping plus a keyword entry on a fresh
context creates the merged frame, and popping restores the context. -/
theorem C8_push_merges_single_witness :
    freshCtx.push [[("a", Val.vint 1)]] [("b", Val.vint 2)] =
      .ok (mergeFrames [("a", Val.vint 1)] [("b", Val.vint 2)],
        ⟨freshCtx.dicts ++
          [mergeFrames [("a", Val.vint 1)] [("b", Val.vint 2)]]⟩) ∧
    BCtx.pop ⟨freshCtx.dicts ++
        [mergeFrames [("a", Val.vint 1)] [("b", Val.vint 2)]]⟩ =
      .ok (mergeFrames [("a", Val.vint 1)] [("b", Val.vint 2)], freshCtx) :=
  have h := C8_push_merges_single freshCtx [[("a", Val.vint 1)]]
    [("b", Val.vint 2)] (by simp) (by simp [freshCtx, resetDicts])
  ⟨h.1, h.2.1⟩

/-- C9: for every raw filter-expression string that compiles
successfully, the string form of the compiled `FilterExpression` is the
original raw text exactly. -/
theorem C9_roundtrip (filters : List (String × PyFilter)) (raw : String)
    (fe : FilterExpr) (h : compileFilterExpression filters raw = .ok fe) :
    feToString fe = raw := by
  unfold compileFilterExpression at h
  split at h
  · exact Except.noConfusion h
  · injection h with h1
    rw [← h1]
    rfl
  · injection h with h1
    rw [← h1]
    rfl

/-- Witness for C9: `"x|upper"` compiles and round-trips. -/
theorem C9_roundtrip_witness :
    compileFilterExpression stdFilters "x|upper" = .ok feXUpper ∧
    feToString feXUpper = "x|upper" :=
  ⟨rfl, C9_roundtrip stdFilters "x|upper" feXUpper rfl⟩

/-- C10: a block token whose contents hold no whitespace-separated word
(empty or whitespace-only) makes `Parser.parse` fail with an empty-
block-tag error carrying the token's line number, for *every* tag
registry — no tag lookup is attempted. -/
theorem C10_empty_block_tag (cfg : ParserCfg) (fuel : Nat)
    (stack : List (String × PToken)) (parseUntil : List String)
    (contents : String) (lineno : Nat) (rest : List PToken)
    (h : pyFirstWord contents = none) :
    parseAux cfg (fuel + 1) stack parseUntil
      (⟨.block, contents, lineno⟩ :: rest) =
      .error (.emptyBlockTag lineno) := by
  simp [parseAux, h]

/-- Witness for C10: a whitespace-only block token on line 3 is rejected
as an empty block tag. -/
theorem C10_empty_block_tag_witness :
    pyFirstWord " " = none ∧
    parseAux ⟨[("x", .simple)], []⟩ 1 [] [] [⟨.block, " ", 3⟩] =
      .error (.emptyBlockTag 3) :=
  ⟨rfl, C10_empty_block_tag ⟨[("x", .simple)], []⟩ 0 [] [] " " 3 [] rfl⟩

end TemplateCore
